import Mathlib

/-!
Verification of the Simple-Agent-Discord-Bot session orchestration core.

This file gives a shallow embedding, in Lean 4, of the parts of the
repository that the specification's claims are about:

* the WebSocket client's per-session status machine
  (src/bot/websocket/client.py, `_setup_event_handlers`);
* the slash-command entry point with its parameter validation, duplicate
  session rejection, retry loop and cleanup
  (src/bot/commands/simple_agent_command.py, `simple_agent_command`);
* the session file manager: artifact tracking, content download, staging,
  delivery-shape selection and transient-file cleanup
  (src/bot/utils/file_manager.py);
* the debounced batching of file-created and tool-call notifications
  (`_add_file_to_batch`, `_send_batched_file_notification` and the tool
  counterparts);
* the user-input arbiter loop (`_handle_user_input_request`).

Effectful Python operations are embedded as pure functions with explicit
state passing and explicit oracles: the HTTP content server is a function
from paths to optional payloads, Discord sends are given a success oracle
(an exception raised by a send is modelled as the oracle answering false),
and local filesystem operations (mkstemp, write, getsize, zip) are
modelled as total, matching the code paths in which the local filesystem
does not fail.  Sizes are in bytes (Nat); time is in whole seconds (Nat).
-/

namespace SimpleAgentBot

/-! ## WebSocket client status machine (src/bot/websocket/client.py) -/

/-- AgentStatus enum from src/bot/websocket/client.py lines 15-21. -/
inductive AgentStatus where
  | idle
  | running
  | waitingInput
  | completed
  | error
deriving DecidableEq, Repr

/-- Named inbound events handled by `_setup_event_handlers`
(src/bot/websocket/client.py lines 60-177), including the socket-level
connect / disconnect / connect_error events. -/
inductive WsEvent where
  | connectEvt
  | disconnectEvt
  | connectErrorEvt
  | agent_started
  | step_start
  | assistant_message
  | tool_call
  | tool_result
  | step_summary
  | final_summary
  | file_created
  | directory_changed
  | task_completed
  | agent_finished
  | agent_error
  | waiting_for_input
deriving DecidableEq, Repr

/-- The client-side fields mutated by the event handlers:
self.connected and self.status. -/
structure ClientState where
  connected : Bool
  status : AgentStatus
deriving DecidableEq, Repr

/-- Initial client state (constructor, lines 40-41): not connected, Idle. -/
def initClientState : ClientState := ⟨false, AgentStatus.idle⟩

/-- One inbound event processed by the handlers installed in
`_setup_event_handlers`.  Each arm is the status/connected assignment that
the corresponding Python handler performs; handlers that only forward to
the cog callback leave the client state unchanged. -/
def clientStep (s : ClientState) (e : WsEvent) : ClientState :=
  match e with
  | WsEvent.connectEvt => ⟨true, s.status⟩
  | WsEvent.disconnectEvt => ⟨false, AgentStatus.idle⟩
  | WsEvent.connectErrorEvt => ⟨false, s.status⟩
  | WsEvent.agent_started => ⟨s.connected, AgentStatus.running⟩
  | WsEvent.task_completed => ⟨s.connected, AgentStatus.completed⟩
  | WsEvent.agent_finished => ⟨s.connected, AgentStatus.idle⟩
  | WsEvent.agent_error => ⟨s.connected, AgentStatus.error⟩
  | WsEvent.waiting_for_input => ⟨s.connected, AgentStatus.waitingInput⟩
  | _ => s

/-- Run a sequence of inbound events from a given client state. -/
def clientRun (s : ClientState) (es : List WsEvent) : ClientState :=
  es.foldl clientStep s

/-! ## Artifact records and add_file (src/bot/utils/file_manager.py) -/

/-- Segments of a character list split on the path separator. -/
def pathSegsAux : List Char → List (List Char)
  | [] => [[]]
  | c :: rest =>
    let r := pathSegsAux rest
    if c = '/' then [] :: r
    else
      match r with
      | s :: ss => (c :: s) :: ss
      | [] => [[c]]

/-- Final path segment, as pathlib's Path(p).name computes it for the
paths this bot handles: split on the separator, ignore empty segments
produced by trailing or doubled separators, take the last segment. -/
def pathName (p : String) : String :=
  String.mk (((((pathSegsAux p.data).filter (fun s => s ≠ []))).getLast?).getD [])

/-- One entry of SessionFileManager.created_files: the dict with keys
path, type, name built at lines 44-48 of file_manager.py. -/
structure FileInfo where
  path : String
  ftype : String
  name : String
deriving DecidableEq, Repr

/-- The record add_file builds from its arguments (lines 44-48):
name is derived from the final path segment. -/
def mkFileInfo (file_path : String) (file_type : String) : FileInfo :=
  ⟨file_path, file_type, pathName file_path⟩

/-- SessionFileManager.add_file (lines 36-53): build the record and append
it unless an identical record (all three fields equal) is already present. -/
def add_file (files : List FileInfo) (file_path : String) (file_type : String) :
    List FileInfo :=
  let fi := mkFileInfo file_path file_type
  if fi ∈ files then files else files ++ [fi]

/-- Absence of two records agreeing on the (path, name) pair, the
invariant the specification ascribes to the artifact list. -/
def pairKeyNodup (l : List FileInfo) : Prop :=
  l.Pairwise (fun a b => ¬(a.path = b.path ∧ a.name = b.name))

instance (l : List FileInfo) : Decidable (pairKeyNodup l) := by
  unfold pairKeyNodup
  exact List.instDecidablePairwise l

/-! ## Slash command entry point (src/bot/commands/simple_agent_command.py) -/

/-- Defaults drawn from Config (default_max_steps, default_auto_steps). -/
structure CommandConfig where
  default_max_steps : Int
  default_auto_steps : Int
deriving DecidableEq, Repr

/-- Keys present in the three per-session maps owned by the cog:
active_sessions, session_threads, file_managers. -/
structure CommandState where
  active_sessions : List String
  session_threads : List String
  file_managers : List String
deriving DecidableEq, Repr

/-- Outcome of the interaction as seen by the requester. -/
inductive CommandReply where
  | rejectedMaxSteps
  | rejectedAutoSteps
  | rejectedDuplicate
  | threadCreateFailed
  | connectFailed
  | accepted (max_steps auto_steps : Int)
deriving DecidableEq, Repr

/-- Observable effects of one invocation of the simple_agent command. -/
structure CommandOutcome where
  reply : CommandReply
  state : CommandState
  threadsCreated : Nat
  connectAttempts : Nat
  runAgentSent : Bool
deriving DecidableEq, Repr

/-- Session teardown `_cleanup_session` (lines 543-571): removes every
per-session map entry for the key (batch cancellation is modelled with the
batch state below). -/
def cleanup_session (st : CommandState) (key : String) : CommandState :=
  ⟨st.active_sessions.filter (fun k => k ≠ key),
   st.session_threads.filter (fun k => k ≠ key),
   st.file_managers.filter (fun k => k ≠ key)⟩

/-- The simple_agent slash command (lines 56-208).  In source order: apply
config defaults to absent options; validate max_steps (1..100); validate
auto_steps (0..max_steps); reject if the requesting identity already has an
active session; create the thread (threadOk oracle; on failure nothing was
stored); store the three per-session map entries; then attempt connect up
to 3 times (connectOk oracle per attempt), sending run_agent on the first
success and running cleanup after the third failure. -/
def simple_agent_command (cfg : CommandConfig) (st : CommandState)
    (userId : String) (max_steps0 auto_steps0 : Option Int)
    (threadOk : Bool) (connectOk : Nat → Bool) : CommandOutcome :=
  let max_steps := max_steps0.getD cfg.default_max_steps
  let auto_steps := auto_steps0.getD cfg.default_auto_steps
  if max_steps ≤ 0 ∨ 100 < max_steps then
    ⟨CommandReply.rejectedMaxSteps, st, 0, 0, false⟩
  else if auto_steps < 0 ∨ max_steps < auto_steps then
    ⟨CommandReply.rejectedAutoSteps, st, 0, 0, false⟩
  else if userId ∈ st.active_sessions then
    ⟨CommandReply.rejectedDuplicate, st, 0, 0, false⟩
  else if ¬ threadOk then
    ⟨CommandReply.threadCreateFailed, st, 0, 0, false⟩
  else
    let st2 : CommandState :=
      ⟨st.active_sessions ++ [userId],
       st.session_threads ++ [userId],
       st.file_managers ++ [userId]⟩
    if connectOk 0 then
      ⟨CommandReply.accepted max_steps auto_steps, st2, 1, 1, true⟩
    else if connectOk 1 then
      ⟨CommandReply.accepted max_steps auto_steps, st2, 1, 2, true⟩
    else if connectOk 2 then
      ⟨CommandReply.accepted max_steps auto_steps, st2, 1, 3, true⟩
    else
      ⟨CommandReply.connectFailed, cleanup_session st2 userId, 1, 3, false⟩

/-- A reply is a rejection when it is one of the three validation or
duplicate rejections sent before any resource is allocated. -/
def CommandReply.isRejection : CommandReply → Bool
  | CommandReply.rejectedMaxSteps => true
  | CommandReply.rejectedAutoSteps => true
  | CommandReply.rejectedDuplicate => true
  | _ => false

/-! ## Artifact download, staging and delivery (src/bot/utils/file_manager.py)

Payloads are modelled by their byte size.  The content endpoint is an
oracle from remote path to an optional payload: none models a non-200
response or a transport failure, both of which the code maps to None
after issuing one request.  Staged temp files receive unique model names
indexed by their position in the download loop. -/

/-- SessionFileManager.download_file_content (lines 55-87): the sentinel
path short-circuits to None before any request is made; otherwise one
request is issued and a non-success answer yields None.  The second
component counts network requests issued by the call. -/
def download_file_content (server : String → Option Nat) (file_path : String) :
    Option Nat × Nat :=
  if file_path = "Unknown file" then (none, 0)
  else (server file_path, 1)

/-- Outcome of the download-and-stage loop for one tracked artifact
(lines 201-213): either a staged temp file (model path and size) or a
failure, plus the number of network requests the record caused. -/
structure StageRecord where
  info : FileInfo
  temp : Option (String × Nat)
  requestsMade : Nat
deriving DecidableEq, Repr

/-- Model name of the temp file staged for the artifact at loop index i. -/
def tempPathAt (i : Nat) : String := "tmp/" ++ toString i

/-- Model name of the archive temp file created by create_zip_file. -/
def zipPath : String := "tmp/agent_files.zip"

/-- The download loop of send_files_to_thread (lines 201-213): each
tracked record is downloaded; a successful download is staged in a fresh
temp file (create_temp_file, modelled as always succeeding); a failed
download records the display name as failed and the loop continues. -/
def stageFiles (server : String → Option Nat) :
    List FileInfo → Nat → List StageRecord
  | [], _ => []
  | fi :: rest, i =>
    match download_file_content server fi.path with
    | (none, n) => ⟨fi, none, n⟩ :: stageFiles server rest (i + 1)
    | (some sz, n) => ⟨fi, some (tempPathAt i, sz), n⟩ :: stageFiles server rest (i + 1)

/-- The temp_files list of the loop: (temp path, display name, size). -/
def stagedTemps (rs : List StageRecord) : List (String × String × Nat) :=
  rs.filterMap (fun r => r.temp.map (fun t => (t.1, r.info.name, t.2)))

/-- The failed_files list of the loop: display names of failed records. -/
def failedNames (rs : List StageRecord) : List String :=
  (rs.filter (fun r => r.temp = none)).map (fun r => r.info.name)

/-- Total network requests issued by the loop. -/
def totalRequests (rs : List StageRecord) : Nat :=
  (rs.map (fun r => r.requestsMade)).sum

/-- Delivery shape chosen by step 4 of send_files_to_thread. -/
inductive Delivery where
  | single
  | individual
  | archiveSent
  | sizeExceeded
  | zipFailed
deriving DecidableEq, Repr

/-- Discord attachment size limit used at line 221: 25 MiB. -/
def max_file_size : Nat := 25 * 1024 * 1024

/-- Transient files still on storage: those created during the call that
the cleanup pass did not remove. -/
def remainingAfterCleanup (created cleaned : List String) : List String :=
  created.filter (fun p => ¬ cleaned.contains p)

/-- Observable outcome of one send_files_to_thread call. -/
structure SendResult where
  ok : Bool
  transientRemaining : List String
  delivery : Option Delivery
  attachmentsDelivered : Nat
  failedReported : Bool
  requests : Nat
deriving DecidableEq, Repr

/-- SessionFileManager.send_files_to_thread (lines 161-273).  sendOk is
the Discord send oracle by program point: 0 the summary embed (line 193),
1 the single send of the chosen branch (lines 216, 230, 238, 249, 251 or
253), 2 the failed-files embed (line 262); a false answer models the send
raising, which the code handles by running the finally cleanup (when the
inner try was entered) and returning False from the outer except.  zipOk
models create_zip_file returning a path; when it does, the archive path
is appended to files_to_cleanup immediately (line 244), before the size
check.  The result records the transient files remaining on storage, the
branch entered, the number of attachments actually delivered, whether the
failed-files notice went out, and the network requests issued. -/
def send_files_to_thread (server : String → Option Nat) (sendOk : Nat → Bool)
    (zipOk : Bool) (zipSize : Nat) (files : List FileInfo) : SendResult :=
  if files = [] then
    ⟨true, [], none, 0, false, 0⟩
  else if ¬ sendOk 0 then
    ⟨false, remainingAfterCleanup [] [], none, 0, false, 0⟩
  else
    let rs := stageFiles server files 0
    let temps := stagedTemps rs
    let fails := failedNames rs
    let reqs := totalRequests rs
    if temps = [] then
      ⟨false, remainingAfterCleanup [] [], none, 0, false, reqs⟩
    else
      let tempPaths := temps.map (fun t => t.1)
      let total := (temps.map (fun t => t.2.2)).sum
      if temps.length = 1 ∧ total < max_file_size then
        if ¬ sendOk 1 then
          ⟨false, remainingAfterCleanup tempPaths tempPaths,
           some Delivery.single, 0, false, reqs⟩
        else if fails ≠ [] ∧ ¬ sendOk 2 then
          ⟨false, remainingAfterCleanup tempPaths tempPaths,
           some Delivery.single, 1, false, reqs⟩
        else
          ⟨true, remainingAfterCleanup tempPaths tempPaths,
           some Delivery.single, 1, fails ≠ [], reqs⟩
      else if temps.length ≤ 10 ∧ total < max_file_size then
        if ¬ sendOk 1 then
          ⟨false, remainingAfterCleanup tempPaths tempPaths,
           some Delivery.individual, 0, false, reqs⟩
        else if fails ≠ [] ∧ ¬ sendOk 2 then
          ⟨false, remainingAfterCleanup tempPaths tempPaths,
           some Delivery.individual, temps.length, false, reqs⟩
        else
          ⟨true, remainingAfterCleanup tempPaths tempPaths,
           some Delivery.individual, temps.length, fails ≠ [], reqs⟩
      else if zipOk then
        let created := tempPaths ++ [zipPath]
        let cleanupList := tempPaths ++ [zipPath]
        if zipSize < max_file_size then
          if ¬ sendOk 1 then
            ⟨false, remainingAfterCleanup created cleanupList,
             some Delivery.archiveSent, 0, false, reqs⟩
          else if fails ≠ [] ∧ ¬ sendOk 2 then
            ⟨false, remainingAfterCleanup created cleanupList,
             some Delivery.archiveSent, 1, false, reqs⟩
          else
            ⟨true, remainingAfterCleanup created cleanupList,
             some Delivery.archiveSent, 1, fails ≠ [], reqs⟩
        else
          if ¬ sendOk 1 then
            ⟨false, remainingAfterCleanup created cleanupList,
             some Delivery.sizeExceeded, 0, false, reqs⟩
          else if fails ≠ [] ∧ ¬ sendOk 2 then
            ⟨false, remainingAfterCleanup created cleanupList,
             some Delivery.sizeExceeded, 0, false, reqs⟩
          else
            ⟨true, remainingAfterCleanup created cleanupList,
             some Delivery.sizeExceeded, 0, fails ≠ [], reqs⟩
      else
        if ¬ sendOk 1 then
          ⟨false, remainingAfterCleanup tempPaths tempPaths,
           some Delivery.zipFailed, 0, false, reqs⟩
        else if fails ≠ [] ∧ ¬ sendOk 2 then
          ⟨false, remainingAfterCleanup tempPaths tempPaths,
           some Delivery.zipFailed, 0, false, reqs⟩
        else
          ⟨true, remainingAfterCleanup tempPaths tempPaths,
           some Delivery.zipFailed, 0, fails ≠ [], reqs⟩

/-! ## Debounced batching (src/bot/commands/simple_agent_command.py)

One (session, kind) batch entry holds its pending item list and at most
one scheduled flush task.  The model adds two history fields recording the
observable effects: how many scheduled flushes were cancelled, and the
item lists actually emitted by flushes that ran.  Time is in seconds; the
delay D stands for config.file_batch_delay (2.0 s) for the file kind and
config.tool_batch_delay (1.5 s) for the tool kind. -/

/-- State of one (session, kind) batch entry plus effect history.
pendingFireAt is the wake-up time of the scheduled flush task, or none
when no live (uncancelled, unfinished) task exists. -/
structure BatchState where
  items : List String
  pendingFireAt : Option Nat
  cancels : Nat
  flushes : List (List String)
deriving DecidableEq, Repr

/-- A fresh batch entry as built on first add: empty list, no task. -/
def initBatch : BatchState := ⟨[], none, 0, []⟩

/-- The flush task body after its sleep, i.e. `_send_batched_file_notification`
(lines 646-687) or `_send_batched_tool_notification` (lines 709-754):
with an empty item list it returns without sending; otherwise it sends the
notification and, only after the send succeeded, deletes the batch entry
(the del at line 684 / 751 sits inside the try, after the send); a send
that raises is caught at line 686 / 753 and leaves the entry - and its
items - in place.  In every case the task itself has finished, so no live
scheduled flush remains. -/
def fireFlush (sendOk : Bool) (st : BatchState) : BatchState :=
  if st.items = [] then ⟨st.items, none, st.cancels, st.flushes⟩
  else if sendOk then ⟨[], none, st.cancels, st.flushes ++ [st.items]⟩
  else ⟨st.items, none, st.cancels, st.flushes⟩

/-- `_add_file_to_batch` (lines 689-707) / `_add_tool_to_batch`
(lines 756-774) at arrival time t: if the previously scheduled flush was
already due (its sleep elapsed at or before t) it has fired first and is
modelled as having run successfully; then the item is appended, a still
pending task is cancelled (the task-and-not-done check at line 699 / 766),
and a fresh flush is scheduled for t + D. -/
def addItem (D t : Nat) (x : String) (st0 : BatchState) : BatchState :=
  let st :=
    match st0.pendingFireAt with
    | some f => if f ≤ t then fireFlush true st0 else st0
    | none => st0
  match st.pendingFireAt with
  | some _ => ⟨st.items ++ [x], some (t + D), st.cancels + 1, st.flushes⟩
  | none => ⟨st.items ++ [x], some (t + D), st.cancels, st.flushes⟩

/-- Process a sequence of timed arrivals against one batch entry. -/
def runAdds (D : Nat) (adds : List (Nat × String)) (st : BatchState) : BatchState :=
  adds.foldl (fun s a => addItem D a.1 a.2 s) st

/-- Let the remaining scheduled flush (if any) run to completion, with a
successful send: the quiescent end of the event stream. -/
def finishBatch (st : BatchState) : BatchState :=
  match st.pendingFireAt with
  | some _ => fireFlush true st
  | none => st

/-- Each arrival in the list comes strictly within D of the previous
arrival, the first one strictly within D of the seed time t. -/
def withinOf (D t : Nat) : List (Nat × String) → Bool
  | [] => true
  | a :: rest => decide (a.1 < t + D) && withinOf D a.1 rest

/-- Last arrival time of the list, with seed t for the empty list. -/
def lastTimeOf (t : Nat) : List (Nat × String) → Nat
  | [] => t
  | a :: rest => lastTimeOf a.1 rest

/-! ## Per-session state and the dispatcher's write discipline

A combined per-session view: the WebSocket client state, both batch
entries and the artifact list.  The batching entry points and the artifact
add touch only their own component, which is how the code's status field
(owned by the client event handlers) is kept out of reach of batching and
collector logic. -/

/-- Combined per-session state owned by the dispatcher. -/
structure SessionView where
  client : ClientState
  fileBatch : BatchState
  toolBatch : BatchState
  artifacts : List FileInfo
deriving DecidableEq, Repr

/-- `_add_file_to_batch` lifted to the session view. -/
def sessionAddFileToBatch (D t : Nat) (x : String) (v : SessionView) : SessionView :=
  ⟨v.client, addItem D t x v.fileBatch, v.toolBatch, v.artifacts⟩

/-- `_add_tool_to_batch` lifted to the session view. -/
def sessionAddToolToBatch (D t : Nat) (x : String) (v : SessionView) : SessionView :=
  ⟨v.client, v.fileBatch, addItem D t x v.toolBatch, v.artifacts⟩

/-- SessionFileManager.add_file lifted to the session view. -/
def sessionAddArtifact (p ty : String) (v : SessionView) : SessionView :=
  ⟨v.client, v.fileBatch, v.toolBatch, add_file v.artifacts p ty⟩

/-! ## Input arbiter (`_handle_user_input_request`, lines 452-541)

Messages posted in the session thread are modelled with their posting
time in seconds and their author classified as the authorized session
owner or any other human.  The list is the thread's message stream in
posting order.  Each iteration of the while loop at line 477 races two
wait_for tasks: one for the authorized author with timeout
config.user_input_timeout (default 600 s), one for any other author with
timeout 1 s.  A wait_for whose timeout elapses completes by raising
TimeoutError; asyncio.wait returns when the first task completes, and the
pending task is cancelled (lines 484-486).  Awaiting the completed task
re-raises its TimeoutError, which the inner handler at lines 528-530
catches, continuing the loop - for both listeners.  The outer handler at
lines 535-541 (timeout notice, stop_agent, cleanup) would only run if a
TimeoutError escaped the loop body. -/

/-- One message in the session thread. -/
structure Msg where
  time : Nat
  fromAuthorized : Bool
  content : String
deriving DecidableEq, Repr

/-- Default config.user_input_timeout in seconds. -/
def user_input_timeout : Nat := 600

/-- Observable effects of one `_handle_user_input_request` invocation. -/
structure ArbiterOutcome where
  timeoutNotices : Nat
  stopCommands : Nat
  cleanups : Nat
  unauthorizedNotices : Nat
  resolvedInput : Option String
  fuelExhausted : Bool
deriving DecidableEq, Repr

/-- First message at or after t0 whose author class matches auth. -/
def firstMsgFrom (auth : Bool) (t0 : Nat) (msgs : List Msg) : Option Msg :=
  msgs.find? (fun m => decide (t0 ≤ m.time) && (m.fromAuthorized == auth))

/-- The outer except branch at lines 535-541: post the timeout notice,
send stop_agent, run `_cleanup_session`.  Defined for reference; the loop
below never reaches it, because the TimeoutError of either wait_for task
is re-raised by awaiting the completed task inside the inner try and is
caught by the inner handler at lines 528-530. -/
def onInputTimeout (acc : ArbiterOutcome) : ArbiterOutcome :=
  ⟨acc.timeoutNotices + 1, acc.stopCommands + 1, acc.cleanups + 1,
   acc.unauthorizedNotices, acc.resolvedInput, acc.fuelExhausted⟩

/-- The while loop at lines 477-533, one constructor case per iteration.
t0 is the loop-entry time: both wait_for tasks are created fresh at t0,
so the authorized listener's deadline is t0 + user_input_timeout and the
other-author listener's deadline is t0 + 1.  Whichever task completes
first (a matching message, or its own timeout) is acted on; ties are
resolved in favour of the authorized listener.  An authorized message is
forwarded (send_user_input, reaction, acknowledgement embed) and the loop
breaks; an other-author message draws the unauthorized notice, the 10 s
sleep and the notice deletion, after which the loop re-enters; either
listener timing out is caught by the inner handler and the loop re-enters,
re-creating both tasks.  The fuel argument bounds the number of
iterations modelled; exhausting it marks the outcome accordingly. -/
def handleInputLoop (msgs : List Msg) : Nat → Nat → ArbiterOutcome → ArbiterOutcome
  | 0, _, acc =>
    ⟨acc.timeoutNotices, acc.stopCommands, acc.cleanups,
     acc.unauthorizedNotices, acc.resolvedInput, true⟩
  | fuel + 1, t0, acc =>
    let auth := firstMsgFrom true t0 msgs
    let other := firstMsgFrom false t0 msgs
    let authDone : Nat :=
      match auth with
      | some m => min m.time (t0 + user_input_timeout)
      | none => t0 + user_input_timeout
    let otherDone : Nat :=
      match other with
      | some m => min m.time (t0 + 1)
      | none => t0 + 1
    if authDone ≤ otherDone then
      match auth with
      | some m =>
        if m.time ≤ t0 + user_input_timeout then
          ⟨acc.timeoutNotices, acc.stopCommands, acc.cleanups,
           acc.unauthorizedNotices, some m.content, acc.fuelExhausted⟩
        else
          handleInputLoop msgs fuel (t0 + user_input_timeout) acc
      | none =>
        handleInputLoop msgs fuel (t0 + user_input_timeout) acc
    else
      match other with
      | some m =>
        if m.time ≤ t0 + 1 then
          handleInputLoop msgs fuel (m.time + 10)
            ⟨acc.timeoutNotices, acc.stopCommands, acc.cleanups,
             acc.unauthorizedNotices + 1, acc.resolvedInput, acc.fuelExhausted⟩
        else
          handleInputLoop msgs fuel (t0 + 1) acc
      | none =>
        handleInputLoop msgs fuel (t0 + 1) acc

/-- `_handle_user_input_request` started at time 0 with no effects yet. -/
def handle_user_input_request (msgs : List Msg) (fuel : Nat) : ArbiterOutcome :=
  handleInputLoop msgs fuel 0 ⟨0, 0, 0, 0, none, false⟩

/-- The temp_files list produced by finalization for a given server. -/
def tempsOf (server : String → Option Nat) (files : List FileInfo) :
    List (String × String × Nat) :=
  stagedTemps (stageFiles server files 0)

/-- The total_size computed at line 220 over the staged temp files. -/
def totalSizeOf (server : String → Option Nat) (files : List FileInfo) : Nat :=
  ((tempsOf server files).map (fun t => t.2.2)).sum

/-! ## Helper lemmas -/

theorem remainingAfterCleanup_self (l : List String) :
    remainingAfterCleanup l l = [] := by
  rw [remainingAfterCleanup, List.filter_eq_nil_iff]
  intro a ha
  simp [List.elem_iff, ha]

theorem failedNames_cons (r : StageRecord) (rs : List StageRecord) :
    failedNames (r :: rs) =
      if r.temp = none then r.info.name :: failedNames rs else failedNames rs := by
  by_cases h : r.temp = none
  · simp [failedNames, List.filter_cons, h]
  · simp [failedNames, List.filter_cons, h]

theorem runAdds_within (D : Nat) :
    ∀ (adds : List (Nat × String)) (t : Nat) (l : List String) (c : Nat)
      (fl : List (List String)),
      withinOf D t adds = true →
      runAdds D adds ⟨l, some (t + D), c, fl⟩ =
        ⟨l ++ adds.map Prod.snd, some (lastTimeOf t adds + D), c + adds.length, fl⟩ := by
  intro adds
  induction adds with
  | nil =>
    intro t l c fl _
    simp [runAdds, lastTimeOf]
  | cons a rest ih =>
    intro t l c fl hw
    rw [withinOf] at hw
    simp only [Bool.and_eq_true, decide_eq_true_eq] at hw
    obtain ⟨hlt, hrest⟩ := hw
    have hstep : addItem D a.1 a.2 ⟨l, some (t + D), c, fl⟩ =
        ⟨l ++ [a.2], some (a.1 + D), c + 1, fl⟩ := by
      unfold addItem
      dsimp only
      rw [if_neg (by omega : ¬ (t + D ≤ a.1))]
    have hfold : runAdds D (a :: rest) ⟨l, some (t + D), c, fl⟩ =
        runAdds D rest (addItem D a.1 a.2 ⟨l, some (t + D), c, fl⟩) := rfl
    rw [hfold, hstep, ih a.1 (l ++ [a.2]) (c + 1) fl hrest]
    simp only [lastTimeOf, List.map_cons, List.append_assoc, List.singleton_append,
      List.length_cons]
    rw [show c + 1 + rest.length = c + (rest.length + 1) from by omega]

theorem handleInputLoop_no_auth (msgs : List Msg)
    (hmsgs : ∀ m ∈ msgs, m.fromAuthorized = false) :
    ∀ (fuel t0 : Nat) (acc : ArbiterOutcome),
      (handleInputLoop msgs fuel t0 acc).timeoutNotices = acc.timeoutNotices ∧
      (handleInputLoop msgs fuel t0 acc).stopCommands = acc.stopCommands ∧
      (handleInputLoop msgs fuel t0 acc).cleanups = acc.cleanups ∧
      (handleInputLoop msgs fuel t0 acc).resolvedInput = acc.resolvedInput := by
  intro fuel
  induction fuel with
  | zero =>
    intro t0 acc
    exact ⟨rfl, rfl, rfl, rfl⟩
  | succ n ih =>
    intro t0 acc
    have hauth : firstMsgFrom true t0 msgs = none := by
      unfold firstMsgFrom
      rw [List.find?_eq_none]
      intro m hm
      simp [hmsgs m hm]
    cases hother : firstMsgFrom false t0 msgs with
    | none =>
      simp only [handleInputLoop, hauth, hother, user_input_timeout]
      rw [if_neg (by omega)]
      exact ih (t0 + 1) acc
    | some m =>
      simp only [handleInputLoop, hauth, hother, user_input_timeout]
      rw [if_neg (by omega)]
      by_cases hm : m.time ≤ t0 + 1
      · rw [if_pos hm]
        exact ih (m.time + 10) ⟨acc.timeoutNotices, acc.stopCommands, acc.cleanups,
          acc.unauthorizedNotices + 1, acc.resolvedInput, acc.fuelExhausted⟩
      · rw [if_neg hm]
        exact ih (t0 + 1) acc

/-! ## Claim theorems -/

/-- C2, counterexample: the claim says that after the session finishes
normally (agent_finished observed) the queryable status is one of the
terminal states Completed or Error.  On the code it is not: the
agent_finished handler (client.py line 158) sets the status back to Idle,
as the run agent_started, task_completed, agent_finished shows. -/
theorem c2_agent_finished_resets_to_idle :
    (clientRun initClientState
      [WsEvent.agent_started, WsEvent.task_completed, WsEvent.agent_finished]).status
        = AgentStatus.idle ∧
    AgentStatus.idle ≠ AgentStatus.completed ∧
    AgentStatus.idle ≠ AgentStatus.error :=
  ⟨rfl, by decide, by decide⟩

/-- C2, amended: agent_started sets Running, waiting_for_input sets
WaitingForInput, task_completed sets Completed, agent_error sets Error,
but agent_finished resets the status to Idle rather than leaving a
terminal state; and the status is written only by the named-event
handlers - the batching entry points and the artifact collector leave the
client state, and hence the status, untouched. -/
theorem c2_status_transitions (s : ClientState) (v : SessionView)
    (D t : Nat) (x p ty : String) :
    (clientStep s WsEvent.agent_started).status = AgentStatus.running ∧
    (clientStep s WsEvent.waiting_for_input).status = AgentStatus.waitingInput ∧
    (clientStep s WsEvent.task_completed).status = AgentStatus.completed ∧
    (clientStep s WsEvent.agent_error).status = AgentStatus.error ∧
    (clientStep s WsEvent.agent_finished).status = AgentStatus.idle ∧
    (sessionAddFileToBatch D t x v).client = v.client ∧
    (sessionAddToolToBatch D t x v).client = v.client ∧
    (sessionAddArtifact p ty v).client = v.client :=
  ⟨rfl, rfl, rfl, rfl, rfl, rfl, rfl, rfl⟩

/-- C6, counterexample: the claim says add_file is idempotent on the
(remotePath, displayName) pair.  The dedup check at line 51 compares the
whole record including the type field, so two calls with the same path
and name but different file_type leave two records agreeing on the
(path, name) pair. -/
theorem c6_pair_dedup_counterexample :
    (add_file (add_file [] "a.txt" "file") "a.txt" "directory").length = 2 ∧
    ¬ pairKeyNodup (add_file (add_file [] "a.txt" "file") "a.txt" "directory") := by
  constructor
  · decide
  · decide

/-- C6, amended: add_file is idempotent on the full record
(path, file_type, name) - two identical calls leave exactly one tracked
record - the tracked list stays duplicate-free, insertion order of the
existing records is preserved, and for lists built with one fixed
file_type (every call site passes the default, file) the list also
contains no two records with identical (remotePath, displayName) pairs. -/
theorem c6_add_file_idempotent (l : List FileInfo) (p t : String)
    (hnd : l.Nodup)
    (hwf : ∀ fi ∈ l, fi.ftype = t ∧ fi.name = pathName fi.path)
    (hpk : pairKeyNodup l) :
    add_file (add_file l p t) p t = add_file l p t ∧
    (add_file l p t).Nodup ∧
    (add_file l p t).take l.length = l ∧
    pairKeyNodup (add_file l p t) := by
  by_cases hmem : mkFileInfo p t ∈ l
  · have h1 : add_file l p t = l := by
      unfold add_file
      rw [if_pos hmem]
    rw [h1]
    exact ⟨h1, hnd, List.take_length l, hpk⟩
  · have h1 : add_file l p t = l ++ [mkFileInfo p t] := by
      unfold add_file
      rw [if_neg hmem]
    have hmem2 : mkFileInfo p t ∈ l ++ [mkFileInfo p t] := by
      simp
    have h2 : add_file (l ++ [mkFileInfo p t]) p t = l ++ [mkFileInfo p t] := by
      unfold add_file
      rw [if_pos hmem2]
    rw [h1]
    refine ⟨h2, ?_, ?_, ?_⟩
    · rw [List.nodup_append]
      exact ⟨hnd, List.nodup_singleton _, by simpa using hmem⟩
    · exact List.take_left l [mkFileInfo p t]
    · rw [pairKeyNodup, List.pairwise_append]
      refine ⟨hpk, List.pairwise_singleton _ _, ?_⟩
      intro a ha b hb hab
      have hb' : b = mkFileInfo p t := by simpa using hb
      rcases hwf a ha with ⟨hty, hname⟩
      apply hmem
      have : a = mkFileInfo p t := by
        rcases hab with ⟨hpath, hn⟩
        subst hb'
        cases a
        simp only [mkFileInfo] at hpath hn ⊢
        simp_all [mkFileInfo, pathName]
      rw [← this]
      exact ha

/-- C6, witness for the amended theorem at a concrete list and call. -/
theorem c6_add_file_idempotent_witness :
    add_file (add_file [mkFileInfo "dir/a.txt" "file"] "dir/b.txt" "file")
        "dir/b.txt" "file" =
      add_file [mkFileInfo "dir/a.txt" "file"] "dir/b.txt" "file" :=
  (c6_add_file_idempotent [mkFileInfo "dir/a.txt" "file"] "dir/b.txt" "file"
    (by decide) (by decide) (by decide)).1

/-- C7: a session-start request from an identity that already owns an
active session is answered with an error reply and allocates nothing: no
thread is created, no connect is attempted, run_agent is not sent, and
all three per-session maps are left unchanged. -/
theorem c7_duplicate_session_rejected (cfg : CommandConfig) (st : CommandState)
    (userId : String) (m a : Option Int) (tOk : Bool) (cOk : Nat → Bool)
    (hdup : userId ∈ st.active_sessions) :
    (simple_agent_command cfg st userId m a tOk cOk).reply.isRejection = true ∧
    (simple_agent_command cfg st userId m a tOk cOk).state = st ∧
    (simple_agent_command cfg st userId m a tOk cOk).threadsCreated = 0 ∧
    (simple_agent_command cfg st userId m a tOk cOk).connectAttempts = 0 ∧
    (simple_agent_command cfg st userId m a tOk cOk).runAgentSent = false := by
  unfold simple_agent_command
  by_cases h1 : m.getD cfg.default_max_steps ≤ 0 ∨ 100 < m.getD cfg.default_max_steps
  · rw [if_pos h1]
    exact ⟨rfl, rfl, rfl, rfl, rfl⟩
  · rw [if_neg h1]
    by_cases h2 : a.getD cfg.default_auto_steps < 0 ∨
        m.getD cfg.default_max_steps < a.getD cfg.default_auto_steps
    · rw [if_pos h2]
      exact ⟨rfl, rfl, rfl, rfl, rfl⟩
    · rw [if_neg h2, if_pos hdup]
      exact ⟨rfl, rfl, rfl, rfl, rfl⟩

/-- C7, witness at a concrete duplicate request. -/
theorem c7_duplicate_session_rejected_witness :
    (simple_agent_command ⟨20, 10⟩ ⟨["u"], ["u"], ["u"]⟩ "u" none none true
        (fun _ => true)).reply.isRejection = true :=
  (c7_duplicate_session_rejected ⟨20, 10⟩ ⟨["u"], ["u"], ["u"]⟩ "u" none none true
    (fun _ => true) (by decide)).1

/-- C8: for a requester without an active session, max_steps outside
1..100 is rejected (in particular 0 and 101) before any session state is
created, auto_steps above max_steps or below 0 is likewise rejected, and
max_steps 20 with auto_steps 0 passes validation without any rejection. -/
theorem c8_parameter_validation (cfg : CommandConfig) (st : CommandState)
    (userId : String) (tOk : Bool) (cOk : Nat → Bool)
    (hfresh : userId ∉ st.active_sessions) :
    (∀ m a : Int, m ≤ 0 ∨ 100 < m →
      (simple_agent_command cfg st userId (some m) (some a) tOk cOk).reply
          = CommandReply.rejectedMaxSteps ∧
      (simple_agent_command cfg st userId (some m) (some a) tOk cOk).state = st ∧
      (simple_agent_command cfg st userId (some m) (some a) tOk cOk).threadsCreated = 0 ∧
      (simple_agent_command cfg st userId (some m) (some a) tOk cOk).connectAttempts = 0) ∧
    (simple_agent_command cfg st userId (some 0) (some 10) tOk cOk).reply
        = CommandReply.rejectedMaxSteps ∧
    (simple_agent_command cfg st userId (some 101) (some 10) tOk cOk).reply
        = CommandReply.rejectedMaxSteps ∧
    (∀ m a : Int, 0 < m → m ≤ 100 → m < a →
      (simple_agent_command cfg st userId (some m) (some a) tOk cOk).reply
          = CommandReply.rejectedAutoSteps ∧
      (simple_agent_command cfg st userId (some m) (some a) tOk cOk).state = st ∧
      (simple_agent_command cfg st userId (some m) (some a) tOk cOk).threadsCreated = 0 ∧
      (simple_agent_command cfg st userId (some m) (some a) tOk cOk).connectAttempts = 0) ∧
    (∀ m a : Int, 0 < m → m ≤ 100 → a < 0 →
      (simple_agent_command cfg st userId (some m) (some a) tOk cOk).reply
          = CommandReply.rejectedAutoSteps ∧
      (simple_agent_command cfg st userId (some m) (some a) tOk cOk).state = st ∧
      (simple_agent_command cfg st userId (some m) (some a) tOk cOk).threadsCreated = 0 ∧
      (simple_agent_command cfg st userId (some m) (some a) tOk cOk).connectAttempts = 0) ∧
    (simple_agent_command cfg st userId (some 20) (some 0) tOk cOk).reply.isRejection
        = false := by
  refine ⟨?_, ?_, ?_, ?_, ?_, ?_⟩
  · intro m a hm
    unfold simple_agent_command
    rw [if_pos]
    · exact ⟨rfl, rfl, rfl, rfl⟩
    · simpa using hm
  · unfold simple_agent_command
    rw [if_pos]
    simp
  · unfold simple_agent_command
    rw [if_pos]
    simp
  · intro m a h1 h2 h3
    unfold simple_agent_command
    rw [if_neg, if_pos]
    · exact ⟨rfl, rfl, rfl, rfl⟩
    · simp only [Option.getD_some]
      right
      exact h3
    · simp only [Option.getD_some]
      omega
  · intro m a h1 h2 h3
    unfold simple_agent_command
    rw [if_neg, if_pos]
    · exact ⟨rfl, rfl, rfl, rfl⟩
    · simp only [Option.getD_some]
      left
      exact h3
    · simp only [Option.getD_some]
      omega
  · unfold simple_agent_command
    rw [if_neg, if_neg, if_neg hfresh]
    · by_cases ht : tOk
      · rw [if_neg]
        · by_cases h0 : cOk 0
          · rw [if_pos h0]
            rfl
          · rw [if_neg h0]
            by_cases hc1 : cOk 1
            · rw [if_pos hc1]
              rfl
            · rw [if_neg hc1]
              by_cases hc2 : cOk 2
              · rw [if_pos hc2]
                rfl
              · rw [if_neg hc2]
                rfl
        · simp [ht]
      · rw [if_pos]
        · rfl
        · simp [ht]
    · simp only [Option.getD_some]
      omega
    · simp only [Option.getD_some]
      omega

/-- C8, witness: max_steps 0 is rejected for a fresh requester. -/
theorem c8_parameter_validation_witness :
    (simple_agent_command ⟨20, 10⟩ ⟨[], [], []⟩ "u" (some 0) (some 10) true
        (fun _ => true)).reply = CommandReply.rejectedMaxSteps :=
  (c8_parameter_validation ⟨20, 10⟩ ⟨[], [], []⟩ "u" true (fun _ => true)
    (by decide)).2.1

/-- C1: evidence for the divergence between the specified input-timeout
behaviour and the code.  When no authorized-author message ever arrives,
the claim (and the bot's own posted notice) says that after
user_input_timeout seconds exactly one timeout notice is posted, exactly
one stop command is sent and teardown runs exactly once.  On the code
this never happens, for any number of loop iterations: each 1 s expiry of
the other-author listener cancels the pending authorized-listener task
and re-creates it with a fresh 600 s timeout, and a TimeoutError raised
by either wait_for is re-raised inside the inner try and caught by the
inner handler at lines 528-530, so the outer timeout branch at lines
535-541 is unreachable - no stop command, no cleanup, no timeout notice,
and the wait never resolves. -/
theorem c1_timeout_branch_unreachable (msgs : List Msg) (fuel : Nat)
    (hmsgs : ∀ m ∈ msgs, m.fromAuthorized = false) :
    (handle_user_input_request msgs fuel).stopCommands = 0 ∧
    (handle_user_input_request msgs fuel).cleanups = 0 ∧
    (handle_user_input_request msgs fuel).timeoutNotices = 0 ∧
    (handle_user_input_request msgs fuel).resolvedInput = none := by
  obtain ⟨h1, h2, h3, h4⟩ :=
    handleInputLoop_no_auth msgs hmsgs fuel 0 ⟨0, 0, 0, 0, none, false⟩
  exact ⟨h2, h3, h1, h4⟩

/-- C1, witness: an empty thread stream for 1000 modelled iterations
(more than covering the 600 s long timeout) produces no stop command and
no teardown. -/
theorem c1_timeout_branch_unreachable_witness :
    (handle_user_input_request [] 1000).stopCommands = 0 ∧
    (handle_user_input_request [] 1000).cleanups = 0 :=
  ⟨(c1_timeout_branch_unreachable [] 1000 (by simp)).1,
   (c1_timeout_branch_unreachable [] 1000 (by simp)).2.1⟩

/-- C5: for a first arrival at t1 followed by arrivals each strictly
within the debounce delay D of the previous one, every add after the
first cancels the outstanding scheduled flush and installs a fresh one
(rest.length cancellations in total, and in general an add at time t with
a flush still pending at f with t < f cancels it and schedules t + D),
and once the stream goes quiet exactly one flush runs, containing all
items in arrival order, leaving the entry cleared with nothing pending. -/
theorem c5_debounce_single_flush (D t1 : Nat) (x1 : String)
    (rest : List (Nat × String)) (hw : withinOf D t1 rest = true) :
    (finishBatch (runAdds D ((t1, x1) :: rest) initBatch)).flushes
        = [x1 :: rest.map Prod.snd] ∧
    (finishBatch (runAdds D ((t1, x1) :: rest) initBatch)).cancels = rest.length ∧
    (finishBatch (runAdds D ((t1, x1) :: rest) initBatch)).items = [] ∧
    (finishBatch (runAdds D ((t1, x1) :: rest) initBatch)).pendingFireAt = none ∧
    (∀ (l : List String) (f c : Nat) (fl : List (List String)) (t : Nat) (x : String),
      t < f →
      addItem D t x ⟨l, some f, c, fl⟩ = ⟨l ++ [x], some (t + D), c + 1, fl⟩) := by
  have h1 : runAdds D ((t1, x1) :: rest) initBatch =
      runAdds D rest ⟨[x1], some (t1 + D), 0, []⟩ := rfl
  have h2 := runAdds_within D rest t1 [x1] 0 [] hw
  have h3 : finishBatch (⟨[x1] ++ rest.map Prod.snd,
      some (lastTimeOf t1 rest + D), 0 + rest.length, []⟩ : BatchState) =
      ⟨[], none, 0 + rest.length, [] ++ [[x1] ++ rest.map Prod.snd]⟩ := by
    unfold finishBatch fireFlush
    dsimp only
    rw [if_neg (by simp)]
    rw [if_pos rfl]
  rw [h1, h2, h3]
  refine ⟨by simp, by simp, rfl, rfl, ?_⟩
  intro l f c fl t x hlt
  unfold addItem
  dsimp only
  rw [if_neg (by omega : ¬ (f ≤ t))]

/-- C5, witness: two arrivals 1 s apart with delay 2 give one cancel and
one flush holding both items in order. -/
theorem c5_debounce_single_flush_witness :
    (finishBatch (runAdds 2 [(0, "a"), (1, "b")] initBatch)).flushes = [["a", "b"]] :=
  (c5_debounce_single_flush 2 0 "a" [(1, "b")] (by decide)).1

/-- C9: a flush notification send that raises does not clear the batch
entry (the del sits after the send inside the try and the exception is
caught): the items stay tracked, nothing is emitted, the next add appends
to them without a cancellation (the old task is done), and the next
successful flush emits the old items together with the new one. -/
theorem c9_failed_send_keeps_batch (l : List String) (x : String)
    (f c : Nat) (fl : List (List String)) (D t : Nat) (hne : l ≠ []) :
    (fireFlush false ⟨l, some f, c, fl⟩).items = l ∧
    (fireFlush false ⟨l, some f, c, fl⟩).flushes = fl ∧
    (addItem D t x (fireFlush false ⟨l, some f, c, fl⟩)).items = l ++ [x] ∧
    (addItem D t x (fireFlush false ⟨l, some f, c, fl⟩)).cancels = c ∧
    (fireFlush true (addItem D t x (fireFlush false ⟨l, some f, c, fl⟩))).flushes
        = fl ++ [l ++ [x]] := by
  have h1 : fireFlush false ⟨l, some f, c, fl⟩ = ⟨l, none, c, fl⟩ := by
    unfold fireFlush
    rw [if_neg hne, if_neg (by simp)]
  have h2 : addItem D t x (⟨l, none, c, fl⟩ : BatchState) =
      ⟨l ++ [x], some (t + D), c, fl⟩ := rfl
  have h3 : fireFlush true (⟨l ++ [x], some (t + D), c, fl⟩ : BatchState) =
      ⟨[], none, c, fl ++ [l ++ [x]]⟩ := by
    unfold fireFlush
    rw [if_neg (by simp), if_pos rfl]
  rw [h1, h2, h3]
  exact ⟨rfl, rfl, rfl, rfl, rfl⟩

/-- C9, witness at a one-item batch followed by one more add. -/
theorem c9_failed_send_keeps_batch_witness :
    (fireFlush true (addItem 2 5 "g" (fireFlush false ⟨["f"], some 3, 0, []⟩))).flushes
        = [["f", "g"]] :=
  (c9_failed_send_keeps_batch ["f"] "g" 3 0 [] 2 5 (by decide)).2.2.2.2

/-- C10: an artifact tracked with the sentinel path is never staged: its
download returns None without issuing any network request, so the staging
loop records it as failed - its display name lands in the failed_files
list reported at finalization - and it contributes no staged temp file
to any delivery branch. -/
theorem c10_unknown_file_never_staged (server : String → Option Nat) :
    ∀ (files : List FileInfo) (i : Nat) (r : StageRecord),
      r ∈ stageFiles server files i → r.info.path = "Unknown file" →
      r.temp = none ∧ r.requestsMade = 0 ∧
      download_file_content server r.info.path = (none, 0) ∧
      r.info.name ∈ failedNames (stageFiles server files i) := by
  intro files
  induction files with
  | nil =>
    intro i r hr
    simp [stageFiles] at hr
  | cons fi rest ih =>
    intro i r hr hpath
    cases hdl : download_file_content server fi.path with
    | mk content nreq =>
      cases content with
      | none =>
        have hcons : stageFiles server (fi :: rest) i =
            ⟨fi, none, nreq⟩ :: stageFiles server rest (i + 1) := by
          simp only [stageFiles, hdl]
        rw [hcons] at hr
        rcases List.mem_cons.mp hr with hhd | htl
        · have hfi : fi.path = "Unknown file" := by
            rw [← hpath, hhd]
          have h0 : download_file_content server fi.path = (none, 0) := by
            unfold download_file_content
            rw [if_pos hfi]
          rw [h0] at hdl
          have hn0 : nreq = 0 := by
            have h2 := congrArg Prod.snd hdl
            simpa using h2.symm
          subst hhd
          subst hn0
          refine ⟨rfl, rfl, ?_, ?_⟩
          · show download_file_content server fi.path = (none, 0)
            exact h0
          · rw [hcons, failedNames_cons]
            simp
        · obtain ⟨ht, hq, hd, hmemf⟩ := ih (i + 1) r htl hpath
          refine ⟨ht, hq, hd, ?_⟩
          rw [hcons, failedNames_cons]
          simp [hmemf]
      | some sz =>
        have hcons : stageFiles server (fi :: rest) i =
            ⟨fi, some (tempPathAt i, sz), nreq⟩ :: stageFiles server rest (i + 1) := by
          simp only [stageFiles, hdl]
        rw [hcons] at hr
        rcases List.mem_cons.mp hr with hhd | htl
        · exfalso
          have hfi : fi.path = "Unknown file" := by
            rw [← hpath, hhd]
          have h0 : download_file_content server fi.path = (none, 0) := by
            unfold download_file_content
            rw [if_pos hfi]
          rw [h0] at hdl
          have := congrArg Prod.fst hdl
          simp at this
        · obtain ⟨ht, hq, hd, hmemf⟩ := ih (i + 1) r htl hpath
          refine ⟨ht, hq, hd, ?_⟩
          rw [hcons, failedNames_cons]
          simp [hmemf]

theorem send_files_all_sends_ok (server : String → Option Nat) (zipSize : Nat)
    (files : List FileInfo)
    (hts : stagedTemps (stageFiles server files 0) ≠ []) :
    send_files_to_thread server (fun _ => true) true zipSize files =
      (if (stagedTemps (stageFiles server files 0)).length = 1 ∧
          (List.map (fun t => t.2.2) (stagedTemps (stageFiles server files 0))).sum
            < max_file_size then
        ⟨true, [], some Delivery.single, 1,
         failedNames (stageFiles server files 0) ≠ [],
         totalRequests (stageFiles server files 0)⟩
      else if (stagedTemps (stageFiles server files 0)).length ≤ 10 ∧
          (List.map (fun t => t.2.2) (stagedTemps (stageFiles server files 0))).sum
            < max_file_size then
        ⟨true, [], some Delivery.individual,
         (stagedTemps (stageFiles server files 0)).length,
         failedNames (stageFiles server files 0) ≠ [],
         totalRequests (stageFiles server files 0)⟩
      else if zipSize < max_file_size then
        ⟨true, [], some Delivery.archiveSent, 1,
         failedNames (stageFiles server files 0) ≠ [],
         totalRequests (stageFiles server files 0)⟩
      else
        ⟨true, [], some Delivery.sizeExceeded, 0,
         failedNames (stageFiles server files 0) ≠ [],
         totalRequests (stageFiles server files 0)⟩) := by
  have hne : files ≠ [] := by
    intro h
    apply hts
    rw [h]
    rfl
  unfold send_files_to_thread
  dsimp only
  rw [if_neg hne, if_neg (show ¬¬(true = true) by simp), if_neg hts]
  by_cases h4 : (stagedTemps (stageFiles server files 0)).length = 1 ∧
      (List.map (fun t => t.2.2) (stagedTemps (stageFiles server files 0))).sum
        < max_file_size
  · rw [if_pos h4, if_pos h4, if_neg (show ¬¬(true = true) by simp),
      if_neg (show ¬(failedNames (stageFiles server files 0) ≠ [] ∧ ¬(true = true)) by simp),
      remainingAfterCleanup_self]
  · rw [if_neg h4, if_neg h4]
    by_cases h7 : (stagedTemps (stageFiles server files 0)).length ≤ 10 ∧
        (List.map (fun t => t.2.2) (stagedTemps (stageFiles server files 0))).sum
          < max_file_size
    · rw [if_pos h7, if_pos h7, if_neg (show ¬¬(true = true) by simp),
        if_neg (show ¬(failedNames (stageFiles server files 0) ≠ [] ∧ ¬(true = true)) by simp),
        remainingAfterCleanup_self]
    · rw [if_neg h7, if_neg h7, if_pos (show (true = true) from rfl)]
      by_cases h9 : zipSize < max_file_size
      · rw [if_pos h9, if_pos h9, if_neg (show ¬¬(true = true) by simp),
          if_neg (show ¬(failedNames (stageFiles server files 0) ≠ [] ∧ ¬(true = true)) by simp),
          remainingAfterCleanup_self]
      · rw [if_neg h9, if_neg h9, if_neg (show ¬¬(true = true) by simp),
          if_neg (show ¬(failedNames (stageFiles server files 0) ≠ [] ∧ ¬(true = true)) by simp),
          remainingAfterCleanup_self]

/-- C3: for every finalization whose staging produced a non-empty set of
temp files, with sends succeeding and the archive creatable, the delivery
shape follows the specified first-match policy: exactly one staged file
with size under 25 MiB gives a single attachment; otherwise at most 10
staged files with total size under 25 MiB give one message with all files
attached; otherwise everything is packaged into one archive, delivered as
one attachment when its own size is under 25 MiB, and a size-exceeded
notice with zero attachments delivered when it is not. -/
theorem c3_delivery_shape (server : String → Option Nat) (zipSize : Nat)
    (files : List FileInfo) (hts : tempsOf server files ≠ []) :
    ((tempsOf server files).length = 1 ∧ totalSizeOf server files < max_file_size →
      (send_files_to_thread server (fun _ => true) true zipSize files).delivery
          = some Delivery.single ∧
      (send_files_to_thread server (fun _ => true) true zipSize
          files).attachmentsDelivered = 1) ∧
    (¬((tempsOf server files).length = 1 ∧ totalSizeOf server files < max_file_size) →
      (tempsOf server files).length ≤ 10 → totalSizeOf server files < max_file_size →
      (send_files_to_thread server (fun _ => true) true zipSize files).delivery
          = some Delivery.individual ∧
      (send_files_to_thread server (fun _ => true) true zipSize
          files).attachmentsDelivered = (tempsOf server files).length) ∧
    (¬((tempsOf server files).length ≤ 10 ∧ totalSizeOf server files < max_file_size) →
      (zipSize < max_file_size →
        (send_files_to_thread server (fun _ => true) true zipSize files).delivery
            = some Delivery.archiveSent ∧
        (send_files_to_thread server (fun _ => true) true zipSize
            files).attachmentsDelivered = 1) ∧
      (max_file_size ≤ zipSize →
        (send_files_to_thread server (fun _ => true) true zipSize files).delivery
            = some Delivery.sizeExceeded ∧
        (send_files_to_thread server (fun _ => true) true zipSize
            files).attachmentsDelivered = 0)) := by
  have hts2 : stagedTemps (stageFiles server files 0) ≠ [] := hts
  have hsend := send_files_all_sends_ok server zipSize files hts2
  unfold totalSizeOf tempsOf
  refine ⟨?_, ?_, ?_⟩
  · intro h
    rw [hsend, if_pos h]
    exact ⟨rfl, rfl⟩
  · intro hn1 h10 hlt
    rw [hsend, if_neg hn1, if_pos ⟨h10, hlt⟩]
    exact ⟨rfl, rfl⟩
  · intro hn2
    have hn1 : ¬((stagedTemps (stageFiles server files 0)).length = 1 ∧
        (List.map (fun t => t.2.2) (stagedTemps (stageFiles server files 0))).sum
          < max_file_size) := by
      intro h
      apply hn2
      refine ⟨?_, h.2⟩
      rw [h.1]
      norm_num
    constructor
    · intro hz
      rw [hsend, if_neg hn1, if_neg hn2, if_pos hz]
      exact ⟨rfl, rfl⟩
    · intro hz
      rw [hsend, if_neg hn1, if_neg hn2, if_neg (by omega : ¬ zipSize < max_file_size)]
      exact ⟨rfl, rfl⟩

/-- C3, witness: one staged file of 1024 bytes is delivered as a single
attachment. -/
theorem c3_delivery_shape_witness :
    (send_files_to_thread (fun _ => some 1024) (fun _ => true) true 100
        [mkFileInfo "output/a.txt" "file"]).delivery = some Delivery.single :=
  ((c3_delivery_shape (fun _ => some 1024) 100 [mkFileInfo "output/a.txt" "file"]
      (by decide)).1 (by decide)).1

/-- C4: every transient file created during a finalization call - each
staged temp file and the archive when one was created - is gone from
storage when the call returns, on every exit path: all three delivery
branches, the capacity-exceeded branch, the zip-failure branch, and the
paths where a notification send raises after staging (the finally block
at lines 264-266 runs cleanup for exactly the created files, and the
archive is appended to the cleanup list at line 244, before any send). -/
theorem c4_transient_cleanup (server : String → Option Nat) (sendOk : Nat → Bool)
    (zipOk : Bool) (zipSize : Nat) (files : List FileInfo) :
    (send_files_to_thread server sendOk zipOk zipSize files).transientRemaining = [] := by
  unfold send_files_to_thread
  dsimp only
  by_cases h1 : files = []
  · rw [if_pos h1]
  · rw [if_neg h1]
    by_cases h2 : ¬ sendOk 0
    · rw [if_pos h2]
      exact remainingAfterCleanup_self []
    · rw [if_neg h2]
      by_cases h3 : stagedTemps (stageFiles server files 0) = []
      · rw [if_pos h3]
        exact remainingAfterCleanup_self []
      · rw [if_neg h3]
        by_cases h4 : (stagedTemps (stageFiles server files 0)).length = 1 ∧
            (List.map (fun t => t.2.2) (stagedTemps (stageFiles server files 0))).sum
              < max_file_size
        · rw [if_pos h4]
          by_cases h5 : ¬ sendOk 1
          · rw [if_pos h5]
            exact remainingAfterCleanup_self _
          · rw [if_neg h5]
            by_cases h6 : failedNames (stageFiles server files 0) ≠ [] ∧ ¬ sendOk 2
            · rw [if_pos h6]
              exact remainingAfterCleanup_self _
            · rw [if_neg h6]
              exact remainingAfterCleanup_self _
        · rw [if_neg h4]
          by_cases h7 : (stagedTemps (stageFiles server files 0)).length ≤ 10 ∧
              (List.map (fun t => t.2.2) (stagedTemps (stageFiles server files 0))).sum
                < max_file_size
          · rw [if_pos h7]
            by_cases h5 : ¬ sendOk 1
            · rw [if_pos h5]
              exact remainingAfterCleanup_self _
            · rw [if_neg h5]
              by_cases h6 : failedNames (stageFiles server files 0) ≠ [] ∧ ¬ sendOk 2
              · rw [if_pos h6]
                exact remainingAfterCleanup_self _
              · rw [if_neg h6]
                exact remainingAfterCleanup_self _
          · rw [if_neg h7]
            by_cases h8 : zipOk
            · rw [if_pos h8]
              by_cases h9 : zipSize < max_file_size
              · rw [if_pos h9]
                by_cases h5 : ¬ sendOk 1
                · rw [if_pos h5]
                  exact remainingAfterCleanup_self _
                · rw [if_neg h5]
                  by_cases h6 : failedNames (stageFiles server files 0) ≠ [] ∧ ¬ sendOk 2
                  · rw [if_pos h6]
                    exact remainingAfterCleanup_self _
                  · rw [if_neg h6]
                    exact remainingAfterCleanup_self _
              · rw [if_neg h9]
                by_cases h5 : ¬ sendOk 1
                · rw [if_pos h5]
                  exact remainingAfterCleanup_self _
                · rw [if_neg h5]
                  by_cases h6 : failedNames (stageFiles server files 0) ≠ [] ∧ ¬ sendOk 2
                  · rw [if_pos h6]
                    exact remainingAfterCleanup_self _
                  · rw [if_neg h6]
                    exact remainingAfterCleanup_self _
            · rw [if_neg h8]
              by_cases h5 : ¬ sendOk 1
              · rw [if_pos h5]
                exact remainingAfterCleanup_self _
              · rw [if_neg h5]
                by_cases h6 : failedNames (stageFiles server files 0) ≠ [] ∧ ¬ sendOk 2
                · rw [if_pos h6]
                  exact remainingAfterCleanup_self _
                · rw [if_neg h6]
                  exact remainingAfterCleanup_self _

/-- C10, witness at a list holding the sentinel record. -/
theorem c10_unknown_file_never_staged_witness :
    (⟨⟨"Unknown file", "file", "Unknown file"⟩, none, 0⟩ : StageRecord).temp = none ∧
    "Unknown file" ∈ failedNames
      (stageFiles (fun _ => some 7) [mkFileInfo "Unknown file" "file"] 0) := by
  have h := c10_unknown_file_never_staged (fun _ => some 7)
    [mkFileInfo "Unknown file" "file"] 0
    ⟨⟨"Unknown file", "file", "Unknown file"⟩, none, 0⟩ (by decide) (by decide)
  exact ⟨h.1, h.2.2.2⟩

end SimpleAgentBot
